import Mathlib

/-!
Verification of the dbsystel/terraform-provider-redshift provider.

This file gives a shallow embedding of the pure core of the provider
(user-name diffing, retry wrapper, SQL fragment construction, resource ID
generation, privilege validation, name validation, and the transactional
group-create handler) and proves the specified properties about it.

Strings are Lean `String`s; Go's `strings.ToLower`/`strings.ToUpper` are
modelled by the character-wise maps `lowerString`/`upperString` (the
identifiers involved are ASCII, where the two agree with Go's Unicode
mapping); Go errors are modelled by an explicit sum distinguishing pq errors
(carrying their five-character SQLSTATE code, as found by `errors.As` through
any wrapping) from all other errors.
-/

namespace TerraformProviderRedshift

/-- A Go error as seen by the retry wrapper: either an error for which
`errors.As(err, &pqErr)` finds a `pq.Error` (we keep its SQLSTATE code), or
any other error (we keep its message). -/
inductive GoError where
  | pqError (code : String)
  | generic (msg : String)
deriving DecidableEq, Repr

/-- Embeds `calculateUserNamesDiff` from
`resource_redshift_group_membership.go`: the first Go loop keeps each old
user name not found (by `==`) among the new names, the second keeps each new
user name not found among the old names. -/
def calculateUserNamesDiff (oldUserNames newUserNames : List String) :
    List String × List String :=
  let deletedUserNames := oldUserNames.filter
    (fun oldUserName => !(newUserNames.any (fun newUserName => oldUserName == newUserName)))
  let addedUserNames := newUserNames.filter
    (fun newUserName => !(oldUserNames.any (fun oldUserName => newUserName == oldUserName)))
  (deletedUserNames, addedUserNames)

/-- The retryable SQLSTATE codes, from the `retryable` map in
`isRetryablePQError`: `pqErrorCodeConcurrent` (XX000),
`pqErrorCodeInvalidSchemaName` (3F000), `pqErrorCodeDeadlock` (40P01),
`pqErrorCodeFailedTransaction` (25P02). -/
def isRetryablePQError (code : String) : Bool :=
  code == "XX000" || code == "3F000" || code == "40P01" || code == "25P02"

/-- The check performed inside `ResourceRetryOnPQErrors`:
`errors.As(err, &pqErr)` succeeds exactly for `GoError.pqError`, and then the
code must be retryable. -/
def retryableGoError : GoError → Bool
  | .pqError code => isRetryablePQError code
  | .generic _ => false

/-- Observable behaviour of one run of the retry wrapper: how many times the
wrapped operation was invoked, the seconds slept (in order), and the final
returned error (`none` = Go `nil`). -/
structure RetryTrace where
  attempts : Nat
  sleeps : List Nat
  result : Option GoError
deriving DecidableEq, Repr

/-- The loop body of `ResourceRetryOnPQErrors`, starting at loop index `i`
with `fuel` iterations left.  The wrapped operation is modelled as a function
from the attempt index to its outcome (`none` = success).  Mirrors the Go
loop: invoke `fn`; on success return nil; on a non-retryable error return
that error; otherwise sleep `i+1` seconds and continue; when the loop bound
is exhausted, return nil. -/
def retryLoop (fn : Nat → Option GoError) (i : Nat) : Nat → RetryTrace
  | 0 => ⟨0, [], none⟩
  | fuel + 1 =>
    match fn i with
    | none => ⟨1, [], none⟩
    | some err =>
      if retryableGoError err then
        let rest := retryLoop fn (i + 1) fuel
        ⟨rest.attempts + 1, (i + 1) :: rest.sleeps, rest.result⟩
      else
        ⟨1, [], some err⟩

/-- Embeds `ResourceRetryOnPQErrors` from the helpers file: a `for i := 0;
i < 10; i++` loop around the wrapped operation. -/
def ResourceRetryOnPQErrors (fn : Nat → Option GoError) : RetryTrace :=
  retryLoop fn 0 10

theorem retryLoop_attempts_le (fn : Nat → Option GoError) :
    ∀ (fuel i : Nat), (retryLoop fn i fuel).attempts ≤ fuel := by
  intro fuel
  induction fuel with
  | zero => intro i; simp [retryLoop]
  | succ n ih =>
    intro i
    simp only [retryLoop]
    cases h : fn i with
    | none => simp
    | some err =>
      by_cases hr : retryableGoError err = true
      · simp only [hr, if_true]
        exact Nat.succ_le_succ (ih (i + 1))
      · simp only [hr, if_false]
        exact Nat.succ_le_succ (Nat.zero_le n)

theorem retryLoop_sleeps_range (fn : Nat → Option GoError) :
    ∀ (fuel i : Nat),
      (retryLoop fn i fuel).sleeps =
        List.range' (i + 1) (retryLoop fn i fuel).sleeps.length := by
  intro fuel
  induction fuel with
  | zero => intro i; simp [retryLoop]
  | succ n ih =>
    intro i
    simp only [retryLoop]
    cases h : fn i with
    | none => simp
    | some err =>
      by_cases hr : retryableGoError err = true
      · simp only [hr, if_true, List.length_cons]
        rw [List.range'_succ]
        exact congrArg (List.cons (i + 1)) (ih (i + 1))
      · simp [hr]

theorem retryLoop_retryable_of_continued (fn : Nat → Option GoError) :
    ∀ (fuel i k : Nat), k + 1 < (retryLoop fn i fuel).attempts →
      ∃ c, fn (i + k) = some (GoError.pqError c) ∧ isRetryablePQError c = true := by
  intro fuel
  induction fuel with
  | zero => intro i k hk; simp [retryLoop] at hk
  | succ n ih =>
    intro i k hk
    simp only [retryLoop] at hk
    cases h : fn i with
    | none => rw [h] at hk; simp at hk
    | some err =>
      rw [h] at hk
      by_cases hr : retryableGoError err = true
      · simp only [hr, if_true] at hk
        cases k with
        | zero =>
          cases err with
          | pqError c =>
            exact ⟨c, by simpa using h, by simpa [retryableGoError] using hr⟩
          | generic m => simp [retryableGoError] at hr
        | succ k2 =>
          have hk2 : k2 + 1 < (retryLoop fn (i + 1) n).attempts :=
            Nat.lt_of_succ_lt_succ hk
          have ⟨c, hc1, hc2⟩ := ih (i + 1) k2 hk2
          exact ⟨c, by rw [show i + (k2 + 1) = i + 1 + k2 by omega]; exact hc1, hc2⟩
      · simp [hr] at hk

theorem retryLoop_sleeps_count (fn : Nat → Option GoError) :
    ∀ (fuel i : Nat),
      ((retryLoop fn i fuel).result = none ∧
        (retryLoop fn i fuel).sleeps.length = (retryLoop fn i fuel).attempts) ∨
      (retryLoop fn i fuel).sleeps.length + 1 = (retryLoop fn i fuel).attempts := by
  intro fuel
  induction fuel with
  | zero => intro i; left; simp [retryLoop]
  | succ n ih =>
    intro i
    simp only [retryLoop]
    cases h : fn i with
    | none => right; simp
    | some err =>
      by_cases hr : retryableGoError err = true
      · simp only [hr, if_true, List.length_cons]
        rcases ih (i + 1) with ⟨h1, h2⟩ | h1
        · left; exact ⟨h1, by omega⟩
        · right; omega
      · right; simp [hr]

/-- C1: `calculateUserNamesDiff(old, new)` returns exactly the set
differences: a name is in the first component iff it occurs in `old` but not
in `new` (users to delete), and in the second component iff it occurs in
`new` but not in `old` (users to add). -/
theorem calculateUserNamesDiff_is_set_difference
    (oldUserNames newUserNames : List String) (x : String) :
    (x ∈ (calculateUserNamesDiff oldUserNames newUserNames).1 ↔
      x ∈ oldUserNames ∧ x ∉ newUserNames) ∧
    (x ∈ (calculateUserNamesDiff oldUserNames newUserNames).2 ↔
      x ∈ newUserNames ∧ x ∉ oldUserNames) := by
  refine ⟨?_, ?_⟩ <;>
  · simp only [calculateUserNamesDiff, List.mem_filter, Bool.not_eq_true',
      List.any_eq_false, beq_iff_eq, ne_eq]
    constructor
    · rintro ⟨h1, h2⟩
      exact ⟨h1, fun hmem => h2 _ hmem rfl⟩
    · rintro ⟨h1, h2⟩
      exact ⟨h1, fun b hb heq => h2 (heq ▸ hb)⟩

theorem calculateUserNamesDiff_is_set_difference_witness :
    ("a" ∈ (calculateUserNamesDiff ["a", "b"] ["b", "c"]).1 ↔
      "a" ∈ ["a", "b"] ∧ "a" ∉ ["b", "c"]) ∧
    ("a" ∈ (calculateUserNamesDiff ["a", "b"] ["b", "c"]).2 ↔
      "a" ∈ ["b", "c"] ∧ "a" ∉ ["a", "b"]) :=
  calculateUserNamesDiff_is_set_difference ["a", "b"] ["b", "c"] "a"

theorem retryLoop_exhausted (fn : Nat → Option GoError) :
    ∀ (fuel i : Nat),
      (∀ k, k < fuel → ∃ c, fn (i + k) = some (GoError.pqError c) ∧
        isRetryablePQError c = true) →
      (retryLoop fn i fuel).result = none ∧ (retryLoop fn i fuel).attempts = fuel := by
  intro fuel
  induction fuel with
  | zero => intro i _; simp [retryLoop]
  | succ n ih =>
    intro i h
    have ⟨c, hc1, hc2⟩ := h 0 (Nat.succ_pos n)
    rw [Nat.add_zero] at hc1
    have hrest := ih (i + 1) (fun k hk => by
      have ⟨c2, hc3, hc4⟩ := h (k + 1) (Nat.succ_lt_succ hk)
      exact ⟨c2, by rw [show i + 1 + k = i + (k + 1) by omega]; exact hc3, hc4⟩)
    simp only [retryLoop, hc1, retryableGoError, hc2, if_true]
    exact ⟨hrest.1, by rw [hrest.2]⟩

/-- C2: the retry wrapper invokes the operation at most 10 times; the j-th
sleep (0-indexed) lasts j+1 seconds, i.e. the sleep list is
`[1, 2, ..., n]` (linear backoff), with one sleep per failed retryable
attempt (one fewer sleep than attempts unless the loop was exhausted, in
which case the result is nil); and every attempt that is followed by a
re-execution returned a pq error whose code is one of XX000, 40P01, 3F000,
25P02. -/
theorem ResourceRetryOnPQErrors_bounded_backoff_retryable
    (fn : Nat → Option GoError) :
    (ResourceRetryOnPQErrors fn).attempts ≤ 10 ∧
    (ResourceRetryOnPQErrors fn).sleeps =
      List.range' 1 (ResourceRetryOnPQErrors fn).sleeps.length ∧
    (((ResourceRetryOnPQErrors fn).result = none ∧
        (ResourceRetryOnPQErrors fn).sleeps.length =
          (ResourceRetryOnPQErrors fn).attempts) ∨
      (ResourceRetryOnPQErrors fn).sleeps.length + 1 =
        (ResourceRetryOnPQErrors fn).attempts) ∧
    (∀ i, i + 1 < (ResourceRetryOnPQErrors fn).attempts →
      ∃ c, fn i = some (GoError.pqError c) ∧
        (c = "XX000" ∨ c = "40P01" ∨ c = "3F000" ∨ c = "25P02")) := by
  refine ⟨retryLoop_attempts_le fn 10 0, retryLoop_sleeps_range fn 10 0,
    retryLoop_sleeps_count fn 10 0, ?_⟩
  intro i hi
  have ⟨c, hc1, hc2⟩ := retryLoop_retryable_of_continued fn 10 0 i hi
  rw [Nat.zero_add] at hc1
  refine ⟨c, hc1, ?_⟩
  simp only [isRetryablePQError, Bool.or_eq_true, beq_iff_eq] at hc2
  tauto

theorem ResourceRetryOnPQErrors_bounded_backoff_retryable_witness :
    (ResourceRetryOnPQErrors (fun _ => some (GoError.pqError "40P01"))).attempts ≤ 10 ∧
    (ResourceRetryOnPQErrors (fun _ => some (GoError.pqError "40P01"))).sleeps =
      List.range' 1
        (ResourceRetryOnPQErrors (fun _ => some (GoError.pqError "40P01"))).sleeps.length ∧
    (((ResourceRetryOnPQErrors (fun _ => some (GoError.pqError "40P01"))).result = none ∧
        (ResourceRetryOnPQErrors (fun _ => some (GoError.pqError "40P01"))).sleeps.length =
          (ResourceRetryOnPQErrors (fun _ => some (GoError.pqError "40P01"))).attempts) ∨
      (ResourceRetryOnPQErrors (fun _ => some (GoError.pqError "40P01"))).sleeps.length + 1 =
        (ResourceRetryOnPQErrors (fun _ => some (GoError.pqError "40P01"))).attempts) ∧
    (∀ i, i + 1 <
        (ResourceRetryOnPQErrors (fun _ => some (GoError.pqError "40P01"))).attempts →
      ∃ c, (fun _ => some (GoError.pqError "40P01")) i = some (GoError.pqError c) ∧
        (c = "XX000" ∨ c = "40P01" ∨ c = "3F000" ∨ c = "25P02")) :=
  ResourceRetryOnPQErrors_bounded_backoff_retryable (fun _ => some (GoError.pqError "40P01"))

/-- C3: when the operation returns an error that is not a pq error with a
retryable code, the wrapper returns that exact error after a single
invocation, with no further attempts and no sleep. -/
theorem ResourceRetryOnPQErrors_nonretryable_propagates
    (fn : Nat → Option GoError) (e : GoError)
    (h1 : fn 0 = some e) (h2 : retryableGoError e = false) :
    ResourceRetryOnPQErrors fn = ⟨1, [], some e⟩ := by
  have h10 : (10 : Nat) = 9 + 1 := rfl
  rw [ResourceRetryOnPQErrors, h10]
  simp [retryLoop, h1, h2]

theorem ResourceRetryOnPQErrors_nonretryable_propagates_witness :
    ResourceRetryOnPQErrors (fun _ => some (GoError.generic "permission denied")) =
      ⟨1, [], some (GoError.generic "permission denied")⟩ :=
  ResourceRetryOnPQErrors_nonretryable_propagates
    (fun _ => some (GoError.generic "permission denied"))
    (GoError.generic "permission denied") rfl rfl

/-- C4: when the operation fails with a retryable pq error on all 10
attempts, the wrapper exhausts the loop and returns nil, discarding the last
error instead of propagating it. -/
theorem ResourceRetryOnPQErrors_exhausted_returns_nil
    (fn : Nat → Option GoError)
    (h : ∀ i, i < 10 → ∃ c, fn i = some (GoError.pqError c) ∧
      isRetryablePQError c = true) :
    (ResourceRetryOnPQErrors fn).result = none ∧
      (ResourceRetryOnPQErrors fn).attempts = 10 :=
  retryLoop_exhausted fn 10 0 (fun k hk => by
    have ⟨c, hc1, hc2⟩ := h k hk
    exact ⟨c, by rw [Nat.zero_add]; exact hc1, hc2⟩)

theorem ResourceRetryOnPQErrors_exhausted_returns_nil_witness :
    (ResourceRetryOnPQErrors (fun _ => some (GoError.pqError "XX000"))).result = none ∧
      (ResourceRetryOnPQErrors (fun _ => some (GoError.pqError "XX000"))).attempts = 10 :=
  ResourceRetryOnPQErrors_exhausted_returns_nil
    (fun _ => some (GoError.pqError "XX000"))
    (fun _ _ => ⟨"XX000", rfl, rfl⟩)

/-- Models Go `strings.ToLower` character-wise (ASCII-faithful). -/
def lowerString (s : String) : String :=
  String.mk (s.data.map Char.toLower)

/-- Models Go `strings.ToUpper` character-wise (ASCII-faithful). -/
def upperString (s : String) : String :=
  String.mk (s.data.map Char.toUpper)

/-- Embeds `pq.QuoteIdentifier` from github.com/lib/pq: the name is
truncated at the first NUL rune, embedded double quotes are doubled, and the
result is wrapped in double quotes. -/
def quoteIdentifier (name : String) : String :=
  let truncated := String.mk (name.data.takeWhile (fun c => !(c == Char.ofNat 0)))
  "\"" ++ truncated.replace "\"" "\"\"" ++ "\""

/-- Embeds `pq.QuoteLiteral` from github.com/lib/pq: single quotes are
doubled; if the result contains a backslash, backslashes are doubled and the
literal is emitted in ` E'...'` form, otherwise in `'...'` form. -/
def quoteLiteral (literal : String) : String :=
  let escaped := literal.replace "'" "''"
  if escaped.contains '\\' then
    " E'" ++ escaped.replace "\\" "\\\\" ++ "'"
  else
    "'" ++ escaped ++ "'"

/-- Embeds `buildUserStringArray` from
`resource_redshift_group_membership.go`: each user name is lower-cased, then
quoted as a literal or as an identifier, and the results are joined with
`", "`. -/
def buildUserStringArray (userNames : List String) (encodeAsLiteral : Bool) : String :=
  String.intercalate ", " (userNames.map (fun userName =>
    let encodedUserName := lowerString userName
    if encodeAsLiteral then quoteLiteral encodedUserName
    else quoteIdentifier encodedUserName))

/-- Embeds `generateGroupMembershipId` from
`resource_redshift_group_membership.go`: the builder starts from the group
name and appends `"_"` followed by the lower-cased user name for each user. -/
def generateGroupMembershipId (groupName : String) (userNames : List String) : String :=
  userNames.foldl (fun idBuilder userName => idBuilder ++ "_" ++ lowerString userName) groupName

/-- The user-name segments of the membership ID, as a function of the
already lower-cased user names: `"_" ++ u1 ++ "_" ++ u2 ++ ...`. -/
def membershipIdSuffix : List String → String
  | [] => ""
  | u :: rest => "_" ++ u ++ membershipIdSuffix rest

theorem foldl_membershipId (userNames : List String) :
    ∀ acc : String,
      userNames.foldl (fun idBuilder userName => idBuilder ++ "_" ++ lowerString userName) acc =
        acc ++ membershipIdSuffix (userNames.map lowerString) := by
  induction userNames with
  | nil => intro acc; simp [membershipIdSuffix]
  | cons u rest ih =>
    intro acc
    rw [List.foldl_cons, ih, List.map_cons]
    simp only [membershipIdSuffix, String.append_assoc]

theorem generateGroupMembershipId_eq (groupName : String) (userNames : List String) :
    generateGroupMembershipId groupName userNames =
      groupName ++ membershipIdSuffix (userNames.map lowerString) :=
  foldl_membershipId userNames groupName

/-- The configuration of a `redshift_default_privileges` resource as seen by
`generateDefaultPrivilegesID`: `d.GetOk` on the optional grantee and schema
attributes is modelled by `Option` (`none` = attribute absent/zero). -/
structure DefaultPrivilegesData where
  group : Option String
  user : Option String
  role : Option String
  schemaAttr : Option String
  owner : String
  objectType : String
deriving DecidableEq, Repr

/-- Embeds `generateDefaultPrivilegesID` from
`resource_redshift_default_privileges.go`: the entity segment is
`gn:`/`un:`/`rn:` for a group/user/role grantee, the schema segment is
`sn:<schema>` or `noschema`, and the four segments are joined with `"_"`. -/
def generateDefaultPrivilegesID (d : DefaultPrivilegesData) : String :=
  let entityName :=
    match d.group with
    | some groupName => "gn:" ++ groupName
    | none =>
      match d.user with
      | some userName => "un:" ++ userName
      | none =>
        match d.role with
        | some roleName => "rn:" ++ roleName
        | none => ""
  let schemaName :=
    match d.schemaAttr with
    | some schemaNameRaw => "sn:" ++ schemaNameRaw
    | none => "noschema"
  String.intercalate "_"
    [entityName, schemaName, "on:" ++ d.owner, "ot:" ++ d.objectType]

/-- C5 counterexample: the membership ID joins the group and user names with
`"_"`, not `":"`, and the default-privileges ID for a group grantee always
contains a schema segment (`noschema` when no schema is set), so neither ID
has the format stated in the claim. -/
theorem resourceID_formats_counterexample :
    generateGroupMembershipId "grp" ["usr"] ≠ "grp" ++ ":" ++ "usr" ∧
    generateGroupMembershipId "grp" ["usr"] = "grp_usr" ∧
    generateDefaultPrivilegesID ⟨some "grp", none, none, none, "own", "table"⟩ ≠
      "gn:grp" ++ "_on:own" ++ "_ot:table" ∧
    generateDefaultPrivilegesID ⟨some "grp", none, none, none, "own", "table"⟩ =
      "gn:grp_noschema_on:own_ot:table" := by
  refine ⟨by decide, by decide, by decide, by decide⟩

/-- C5 (amended): the membership ID is the group name followed by the
lower-cased user names, joined with `"_"`; the default-privileges ID for a
group grantee is `gn:<group>_sn:<schema>_on:<owner>_ot:<type>` when a schema
is configured and `gn:<group>_noschema_on:<owner>_ot:<type>` otherwise. -/
theorem resourceID_formats (groupName : String) (userNames : List String)
    (d : DefaultPrivilegesData) (grantee : String) (hg : d.group = some grantee) :
    generateGroupMembershipId groupName userNames =
      groupName ++ membershipIdSuffix (userNames.map lowerString) ∧
    generateDefaultPrivilegesID d =
      "gn:" ++ grantee ++ "_" ++
        (match d.schemaAttr with
          | some schemaName => "sn:" ++ schemaName
          | none => "noschema") ++ "_" ++
        ("on:" ++ d.owner) ++ "_" ++ ("ot:" ++ d.objectType) := by
  constructor
  · exact generateGroupMembershipId_eq groupName userNames
  · rcases d with ⟨g, u, r, s, o, t⟩
    cases hg
    cases s <;> rfl

theorem resourceID_formats_witness :
    generateGroupMembershipId "grp" ["USR"] =
      "grp" ++ membershipIdSuffix (["USR"].map lowerString) ∧
    generateDefaultPrivilegesID ⟨some "grp", none, none, some "sch", "own", "table"⟩ =
      "gn:" ++ "grp" ++ "_" ++
        (match (⟨some "grp", none, none, some "sch", "own", "table"⟩ :
            DefaultPrivilegesData).schemaAttr with
          | some schemaName => "sn:" ++ schemaName
          | none => "noschema") ++ "_" ++
        ("on:" ++ (⟨some "grp", none, none, some "sch", "own", "table"⟩ :
            DefaultPrivilegesData).owner) ++ "_" ++
        ("ot:" ++ (⟨some "grp", none, none, some "sch", "own", "table"⟩ :
            DefaultPrivilegesData).objectType) :=
  resourceID_formats "grp" ["USR"]
    ⟨some "grp", none, none, some "sch", "own", "table"⟩ "grp" rfl

theorem buildUserStringArray_eq (userNames : List String) (encodeAsLiteral : Bool) :
    buildUserStringArray userNames encodeAsLiteral =
      String.intercalate ", " ((userNames.map lowerString).map
        (fun encodedUserName =>
          if encodeAsLiteral then quoteLiteral encodedUserName
          else quoteIdentifier encodedUserName)) := by
  simp only [buildUserStringArray, List.map_map]
  rfl

/-- C10: group membership SQL construction and ID generation are invariant
under the case of user names: two user-name lists with the same lower-cased
forms produce the same SQL fragment (for both literal and identifier
encodings) and the same membership ID. -/
theorem groupMembership_case_invariant (groupName : String)
    (userNames1 userNames2 : List String) (encodeAsLiteral : Bool)
    (h : userNames1.map lowerString = userNames2.map lowerString) :
    buildUserStringArray userNames1 encodeAsLiteral =
      buildUserStringArray userNames2 encodeAsLiteral ∧
    generateGroupMembershipId groupName userNames1 =
      generateGroupMembershipId groupName userNames2 := by
  constructor
  · rw [buildUserStringArray_eq, buildUserStringArray_eq, h]
  · rw [generateGroupMembershipId_eq, generateGroupMembershipId_eq, h]

theorem groupMembership_case_invariant_witness :
    buildUserStringArray ["Alice"] true = buildUserStringArray ["aLICE"] true ∧
    generateGroupMembershipId "grp" ["Alice"] =
      generateGroupMembershipId "grp" ["aLICE"] :=
  groupMembership_case_invariant "grp" ["Alice"] ["aLICE"] true (by decide)

/-- The database connection as seen by the membership handlers: `exec`
gives the outcome of `db.Exec` on a statement (`none` = success, `some msg`
= error), and `queryHasRow` gives the outcome of `db.Query` on a select
(error, or whether at least one row was returned). -/
structure DBEnv where
  exec : String → Option String
  queryHasRow : String → Except String Bool

/-- Embeds `addUsersToGroup`: no SQL for an empty user list, otherwise one
`ALTER GROUP ... ADD USER ...;` statement.  Returns the list of statements
sent to the database and the error, if any. -/
def addUsersToGroup (env : DBEnv) (group : String) (userNames : List String) :
    List String × Option String :=
  if userNames.length = 0 then ([], none)
  else
    let userNamesParam := buildUserStringArray userNames false
    let query := "ALTER GROUP " ++ quoteIdentifier group ++ " ADD USER " ++
      userNamesParam ++ ";"
    match env.exec query with
    | some e => ([query], some ("could not add users " ++ userNamesParam ++
        " to group \"" ++ group ++ "\": " ++ e))
    | none => ([query], none)

/-- Embeds `dropUsersFromGroup`: no SQL for an empty user list, otherwise
one `ALTER GROUP ... DROP USER ...;` statement. -/
def dropUsersFromGroup (env : DBEnv) (groupName : String) (userNames : List String) :
    List String × Option String :=
  if userNames.length = 0 then ([], none)
  else
    let userNamesParam := buildUserStringArray userNames false
    let query := "ALTER GROUP " ++ quoteIdentifier groupName ++ " DROP USER " ++
      userNamesParam ++ ";"
    match env.exec query with
    | some e => ([query], some ("could not remove users " ++ userNamesParam ++
        " from group \"" ++ groupName ++ "\": " ++ e))
    | none => ([query], none)

/-- Embeds `resourceRedshiftGroupMembershipRead`: one membership query; the
resource ID is set to the generated membership ID when a row exists and to
the empty string otherwise.  The returned `Except` carries the new resource
ID on success. -/
def resourceRedshiftGroupMembershipRead (env : DBEnv) (groupName : String)
    (userNames : List String) : List String × Except String String :=
  let query :=
    "SELECT 1 FROM pg_group pgg JOIN pg_user pgu ON pgu.usesysid = ANY(pgg.grolist) WHERE pgg.groname = " ++
    quoteLiteral groupName ++ " AND pgu.usename IN (" ++
    buildUserStringArray userNames true ++ ");"
  match env.queryHasRow query with
  | .error e => ([query], .error e)
  | .ok true => ([query], .ok (generateGroupMembershipId groupName userNames))
  | .ok false => ([query], .ok "")

/-- Embeds `resourceRedshiftGroupMembershipCreate`: reject an empty user set
before any SQL, then add the users and re-read. -/
def resourceRedshiftGroupMembershipCreate (env : DBEnv) (groupName : String)
    (userNames : List String) : List String × Except String String :=
  if userNames.length = 0 then
    ([], .error "at least one user must be specified in \"users\"")
  else
    match addUsersToGroup env groupName userNames with
    | (trace, some e) => (trace, .error e)
    | (trace, none) =>
      let readOut := resourceRedshiftGroupMembershipRead env groupName userNames
      (trace ++ readOut.1, readOut.2)

/-- Embeds `resourceRedshiftGroupMembershipDelete`: drops the configured
users from the group. -/
def resourceRedshiftGroupMembershipDelete (env : DBEnv) (groupName : String)
    (userNames : List String) : List String × Option String :=
  dropUsersFromGroup env groupName userNames

/-- The state of a `redshift_group_membership` update as seen by the Update
handler: `d.GetChange` yields the old and new user sets, `d.Get` yields the
new values, and `d.HasChange(name)` is `groupNameChanged`. -/
structure GroupMembershipChange where
  groupName : String
  oldUserNames : List String
  newUserNames : List String
  groupNameChanged : Bool

/-- Embeds `resourceRedshiftGroupMembershipUpdate`: reject an empty new user
set before any SQL; on a group-name change, delete then re-create; otherwise
drop the removed users, add the added users, and re-read. -/
def resourceRedshiftGroupMembershipUpdate (env : DBEnv)
    (d : GroupMembershipChange) : List String × Except String String :=
  if d.newUserNames.length = 0 then
    ([], .error "at least one user must be specified in \"users\"")
  else if d.groupNameChanged then
    match resourceRedshiftGroupMembershipDelete env d.groupName d.newUserNames with
    | (trace, some e) =>
      (trace, .error ("error deleting group membership while updating the resource: " ++ e))
    | (trace, none) =>
      match resourceRedshiftGroupMembershipCreate env d.groupName d.newUserNames with
      | (trace2, .error e) =>
        (trace ++ trace2,
          .error ("error creating group membership while updating the resource: " ++ e))
      | (trace2, .ok newId) => (trace ++ trace2, .ok newId)
  else
    let diff := calculateUserNamesDiff d.oldUserNames d.newUserNames
    match dropUsersFromGroup env d.groupName diff.1 with
    | (trace, some e) =>
      (trace, .error ("error removing users from group while updating the resource: " ++ e))
    | (trace, none) =>
      match addUsersToGroup env d.groupName diff.2 with
      | (trace2, some e) =>
        (trace ++ trace2,
          .error ("error adding users to group while updating the resource: " ++ e))
      | (trace2, none) =>
        let readOut := resourceRedshiftGroupMembershipRead env d.groupName d.newUserNames
        (trace ++ trace2 ++ readOut.1, readOut.2)

/-- C6: with an empty user set, both Create and Update of
`redshift_group_membership` fail with the "at least one user" error before
sending any SQL statement to the database (the statement trace is empty, so
the database state is unchanged). -/
theorem groupMembership_empty_users_rejected (env : DBEnv) (groupName : String)
    (userNames : List String) (d : GroupMembershipChange)
    (h1 : userNames = []) (h2 : d.newUserNames = []) :
    resourceRedshiftGroupMembershipCreate env groupName userNames =
      ([], .error "at least one user must be specified in \"users\"") ∧
    resourceRedshiftGroupMembershipUpdate env d =
      ([], .error "at least one user must be specified in \"users\"") := by
  subst h1
  constructor
  · rfl
  · simp [resourceRedshiftGroupMembershipUpdate, h2]

theorem groupMembership_empty_users_rejected_witness :
    resourceRedshiftGroupMembershipCreate
        ⟨fun _ => none, fun _ => .ok false⟩ "grp" [] =
      ([], .error "at least one user must be specified in \"users\"") ∧
    resourceRedshiftGroupMembershipUpdate
        ⟨fun _ => none, fun _ => .ok false⟩ ⟨"grp", ["old"], [], false⟩ =
      ([], .error "at least one user must be specified in \"users\"") :=
  groupMembership_empty_users_rejected ⟨fun _ => none, fun _ => .ok false⟩
    "grp" [] ⟨"grp", ["old"], [], false⟩ rfl rfl

/-- The per-privilege check of `validatePrivileges`: the Go loop body
switches on the upper-cased object type and then on the upper-cased
privilege keyword, returning false for anything outside the static table. -/
def privilegeAllowed (objectType p : String) : Bool :=
  match upperString objectType with
  | "SCHEMA" =>
    match upperString p with
    | "CREATE" | "USAGE" => true
    | _ => false
  | "TABLE" =>
    match upperString p with
    | "SELECT" | "UPDATE" | "INSERT" | "DELETE" | "DROP" | "REFERENCES"
    | "RULE" | "TRIGGER" => true
    | _ => false
  | "DATABASE" =>
    match upperString p with
    | "CREATE" | "TEMPORARY" | "USAGE" => true
    | _ => false
  | "PROCEDURE" | "FUNCTION" =>
    match upperString p with
    | "EXECUTE" => true
    | _ => false
  | "LANGUAGE" =>
    match upperString p with
    | "USAGE" => true
    | _ => false
  | _ => false

/-- Embeds `validatePrivileges` from the helpers file: an empty privilege
list for object type exactly `"language"` is rejected up front; otherwise
every privilege in the list must pass the static table check. -/
def validatePrivileges (privileges : List String) (objectType : String) : Bool :=
  if objectType == "language" && privileges.length == 0 then false
  else privileges.all (fun p => privilegeAllowed objectType p)

/-- The static object-type → allowed-privileges table as the spec states
it, keyed by the upper-cased object type; unknown object types map to the
empty list. -/
def specAllowedPrivileges (objectTypeUpper : String) : List String :=
  match objectTypeUpper with
  | "TABLE" => ["SELECT", "UPDATE", "INSERT", "DELETE", "DROP", "REFERENCES",
      "RULE", "TRIGGER"]
  | "SCHEMA" => ["CREATE", "USAGE"]
  | "DATABASE" => ["CREATE", "TEMPORARY", "USAGE"]
  | "PROCEDURE" => ["EXECUTE"]
  | "FUNCTION" => ["EXECUTE"]
  | "LANGUAGE" => ["USAGE"]
  | _ => []

theorem privilegeAllowed_iff (objectType p : String) :
    privilegeAllowed objectType p = true ↔
      upperString p ∈ specAllowedPrivileges (upperString objectType) := by
  unfold privilegeAllowed specAllowedPrivileges
  split <;> try split
  all_goals simp_all

/-- C7 counterexample: for the empty privilege list the per-element loop
never runs, so `validatePrivileges` returns true even when the object type
is not in the table (`"view"`), contradicting the claim that an unknown
object type is always rejected; it also returns true for the empty list
with object type `"LANGUAGE"`, because the empty-list rejection compares
against the exact lowercase string `"language"`. -/
theorem validatePrivileges_counterexample :
    validatePrivileges [] "view" = true ∧
    validatePrivileges [] "LANGUAGE" = true := by
  exact ⟨by decide, by decide⟩

/-- C7 (amended): `validatePrivileges` returns true iff the configuration
is not the empty list with object type exactly `"language"` and every
privilege keyword, compared case-insensitively, is in the static allowed
set of the object type (table: SELECT, UPDATE, INSERT, DELETE, DROP,
REFERENCES, RULE, TRIGGER; schema: CREATE, USAGE; database: CREATE,
TEMPORARY, USAGE; procedure/function: EXECUTE; language: USAGE; every
other object type allows nothing).  In particular any non-empty list with
an unknown object type, and any list with a keyword outside the table, is
rejected, but the empty list passes for every object type other than the
exact string `"language"`. -/
theorem validatePrivileges_characterization (privileges : List String)
    (objectType : String) :
    validatePrivileges privileges objectType = true ↔
      (¬(objectType = "language" ∧ privileges = []) ∧
        ∀ p ∈ privileges,
          upperString p ∈ specAllowedPrivileges (upperString objectType)) := by
  cases hc : (objectType == "language" && privileges.length == 0) with
  | true =>
    have hand : objectType = "language" ∧ privileges = [] := by
      simp only [Bool.and_eq_true, beq_iff_eq] at hc
      exact ⟨hc.1, List.length_eq_zero.mp (by simpa using hc.2)⟩
    simp [validatePrivileges, hc, hand.1, hand.2]
  | false =>
    have hne : ¬(objectType = "language" ∧ privileges = []) := by
      rintro ⟨h1, h2⟩
      simp [h1, h2] at hc
    simp only [validatePrivileges, hc, Bool.false_eq_true, if_false,
      List.all_eq_true]
    constructor
    · intro h
      exact ⟨hne, fun p hp => (privilegeAllowed_iff objectType p).mp (h p hp)⟩
    · rintro ⟨h1, h2⟩ p hp
      exact (privilegeAllowed_iff objectType p).mpr (h2 p hp)

theorem validatePrivileges_characterization_witness :
    (validatePrivileges ["select", "insert"] "table" = true ↔
      (¬("table" = "language" ∧ (["select", "insert"] : List String) = []) ∧
        ∀ p ∈ (["select", "insert"] : List String),
          upperString p ∈ specAllowedPrivileges (upperString "table"))) ∧
    validatePrivileges ["select", "insert"] "table" = true :=
  ⟨validatePrivileges_characterization ["select", "insert"] "table", by decide⟩

/-- The regular expression `^__.*` from the `redshift_group` name schema:
anchored at the start, it requires a literal `_`, a literal `_`, and then
`.*` (which matches any remainder), so it matches exactly the strings whose
first two characters are underscores. -/
def matchesReservedGroupNamePattern (s : String) : Bool :=
  match s.data with
  | '_' :: '_' :: _ => true
  | _ => false

/-- Embeds the `redshift_group` name `ValidateFunc`
(`validation.StringDoesNotMatch(regexp.MustCompile("^__.*"), ...)`): the
name is accepted exactly when the reserved pattern does not match. -/
def redshiftGroupNameAccepted (name : String) : Bool :=
  !(matchesReservedGroupNamePattern name)

theorem matchesReservedGroupNamePattern_iff (s : String) :
    matchesReservedGroupNamePattern s = true ↔
      ∃ rest, s.data = '_' :: '_' :: rest := by
  unfold matchesReservedGroupNamePattern
  split
  · rename_i rest heq
    simp only [true_iff]
    exact ⟨rest, heq⟩
  · rename_i hne
    simp only [Bool.false_eq_true, false_iff, not_exists]
    intro rest hrest
    exact hne rest hrest

/-- C8: the `redshift_group` name validator rejects exactly the names that
begin with two underscores: it returns a validation error for every string
of the form `"__" ++ t` and accepts every other string. -/
theorem redshiftGroupName_validator_rejects_double_underscore (name : String) :
    redshiftGroupNameAccepted name = false ↔ ∃ t, name = "__" ++ t := by
  have h1 : redshiftGroupNameAccepted name = false ↔
      matchesReservedGroupNamePattern name = true := by
    unfold redshiftGroupNameAccepted
    cases matchesReservedGroupNamePattern name <;> simp
  rw [h1, matchesReservedGroupNamePattern_iff]
  constructor
  · rintro ⟨rest, hrest⟩
    refine ⟨String.mk rest, String.ext ?_⟩
    rw [hrest]
    rfl
  · rintro ⟨t, rfl⟩
    exact ⟨t.data, rfl⟩

theorem redshiftGroupName_validator_witness :
    redshiftGroupNameAccepted "__internal" = false :=
  (redshiftGroupName_validator_rejects_double_underscore "__internal").mpr
    ⟨"internal", rfl⟩

/-- Embeds the query construction of `resourceRedshiftGroupCreate`:
`CREATE GROUP <name>` with a `WITH USER` clause when the user set is
non-empty, all identifiers quoted. -/
def createGroupQuery (groupName : String) (users : List String) : String :=
  let base := "CREATE GROUP " ++ quoteIdentifier groupName
  if users.length > 0 then
    base ++ " WITH USER " ++ String.intercalate ", " (users.map quoteIdentifier)
  else base

/-- The environment of one `resourceRedshiftGroupCreate` run: the outcome
of `tx.Exec` per statement, the outcome of the `SELECT grosysid` lookup
inside the transaction, and the outcome of the post-commit re-read
(`resourceRedshiftGroupReadImpl`, which returns the group name and its
members). -/
structure GroupCreateEnv where
  exec : String → Option String
  groSysIdLookup : Except String String
  readGroup : Except String (String × List String)

/-- Outcome of one `resourceRedshiftGroupCreate` run: the committed
database statements, the resource ID that was set (empty if never set), the
re-read attribute state, and the returned error. -/
structure GroupCreateResult where
  db : List String
  resourceId : String
  state : Option (String × List String)
  err : Option String
deriving Repr

/-- Embeds `resourceRedshiftGroupCreate`.  Modelled from the spec: the
transaction helpers `startTransaction`/`deferredRollback` are not part of
the sources; per the spec the statements are "wrapped in a transaction", so
a transaction buffers its statements and applies them to the database only
on `Commit`, while the deferred rollback of an uncommitted transaction
discards them (commit itself is assumed to succeed).  Everything else
follows the source: execute `CREATE GROUP`, look up `grosysid`, set the
resource ID, commit, then re-read the state. -/
def resourceRedshiftGroupCreate (env : GroupCreateEnv) (db : List String)
    (groupName : String) (users : List String) : GroupCreateResult :=
  let query := createGroupQuery groupName users
  match env.exec query with
  | some e => ⟨db, "", none, some ("could not create redshift group: " ++ e)⟩
  | none =>
    match env.groSysIdLookup with
    | .error e =>
      ⟨db, "", none,
        some ("could not get redshift group id for \"" ++ groupName ++ "\": " ++ e)⟩
    | .ok groSysID =>
      match env.readGroup with
      | .error e => ⟨db ++ [query], groSysID, none, some e⟩
      | .ok st => ⟨db ++ [query], groSysID, some st, none⟩

/-- C9: group Create runs `CREATE GROUP` and the `grosysid` lookup in one
transaction: if either fails the transaction is rolled back and the
database is unchanged (no group exists afterwards); the transaction is
committed (the database changes) only when both succeeded, in which case
exactly the `CREATE GROUP` statement was applied; and an error-free run
re-reads the state to populate the computed fields. -/
theorem resourceRedshiftGroupCreate_transactional (env : GroupCreateEnv)
    (db : List String) (groupName : String) (users : List String) :
    (∀ e, env.exec (createGroupQuery groupName users) = some e →
      (resourceRedshiftGroupCreate env db groupName users).db = db) ∧
    (∀ e, env.exec (createGroupQuery groupName users) = none →
      env.groSysIdLookup = .error e →
      (resourceRedshiftGroupCreate env db groupName users).db = db) ∧
    ((resourceRedshiftGroupCreate env db groupName users).db ≠ db →
      env.exec (createGroupQuery groupName users) = none ∧
      (∃ gid, env.groSysIdLookup = .ok gid ∧
        (resourceRedshiftGroupCreate env db groupName users).resourceId = gid) ∧
      (resourceRedshiftGroupCreate env db groupName users).db =
        db ++ [createGroupQuery groupName users]) ∧
    ((resourceRedshiftGroupCreate env db groupName users).err = none →
      ∃ st, env.readGroup = .ok st ∧
        (resourceRedshiftGroupCreate env db groupName users).state = some st) := by
  unfold resourceRedshiftGroupCreate
  cases hx : env.exec (createGroupQuery groupName users) with
  | some e => simp [hx]
  | none =>
    cases hl : env.groSysIdLookup with
    | error e => simp [hx, hl]
    | ok gid =>
      cases hr : env.readGroup with
      | error e => simp [hx, hl, hr]
      | ok st => simp [hx, hl, hr]

theorem resourceRedshiftGroupCreate_transactional_witness :
    (resourceRedshiftGroupCreate
        ⟨fun _ => some "permission denied", .error "lookup failed", .error "read failed"⟩
        [] "grp" []).db = [] :=
  (resourceRedshiftGroupCreate_transactional
    ⟨fun _ => some "permission denied", .error "lookup failed", .error "read failed"⟩
    [] "grp" []).1 "permission denied" rfl

end TerraformProviderRedshift
